import Mathlib

/-!
Shallow embedding of the header-only result library (src/result/result.hpp):
a discriminated container Result holding either a success value or an error
value, with map and map_error combinators, an empty-success specialization
for OkType = void, and a BadUnwrapException failure signal whose message is
enriched by an optional ErrorDescription capability hook.

C++ exceptions are modelled with Except over an explicit Failure type.
Machine-level move semantics do not change payload values, so the consuming
overloads are embedded as value-level functions like the read overloads;
each overload keeps its own definition, documented with its source lines.
The transform-invocation discipline of map and map_error is made observable
by instrumenting every syntactic call site of the transform with a counter:
each function returns the pair of its result and the number of times the
caller-supplied function was invoked on the taken path.
-/

namespace ResultLib

variable {α β γ ε η : Type}

/-- Construction tag Ok, result.hpp lines 8-12: wraps one success value. -/
structure Ok (α : Type) where
  value : α

/-- Construction tag Error, result.hpp lines 17-21: wraps one error value. -/
structure Error (ε : Type) where
  value : ε

/-- The generic Result, result.hpp lines 52-155: a two-alternative variant
holding the success payload at OkIndex 0 or the error payload at
ErrorIndex 1. A std::variant always holds exactly one alternative, which a
Lean sum type models directly. -/
inductive Result (α ε : Type) where
  | ok : α → Result α ε
  | err : ε → Result α ε
  deriving DecidableEq, Repr

/-- The failure signals the library can raise: BadUnwrapException of
result.hpp lines 31-50, carrying the offending error payload and a rendered
message, and the std::runtime_error raised by wrong-branch error access,
carrying only a message. -/
inductive Failure (ε : Type) where
  | badUnwrap : ε → String → Failure ε
  | runtimeError : String → Failure ε
  deriving DecidableEq, Repr

/-- The ErrorDescription capability hook of result.hpp lines 23-29: the
concept HasErrorDescription holds exactly when a description function for
the error type exists, which the embedding carries as an Option value fixed
per instantiation (the check is a compile-time concept, not a runtime
inspection). -/
def DescrHook (ε : Type) : Type := Option (ε → String)

/-- Message construction of BadUnwrapException, result.hpp lines 38-45: the
generic text plus the rendered description when the capability is present,
the generic text alone otherwise. -/
def constructMessage (descr : DescrHook ε) (e : ε) : String :=
  match descr with
  | some d => "Failed to unwrap Result: " ++ d e
  | none => "Failed to unwrap Result"

/-- True exactly when an Except value is a raised failure. -/
def raises {φ β : Type} : Except φ β → Bool
  | .error _ => true
  | .ok _ => false

/-- Constructor from an Ok tag, result.hpp line 55. -/
def ofOk (o : Ok α) : Result α ε := .ok o.value

/-- Constructor from an Error tag, result.hpp line 56. -/
def ofError (o : Error ε) : Result α ε := .err o.value

/-- Assignment from an Ok tag, result.hpp lines 58-61: replaces the whole
variant with a fresh success branch, discarding the previous payload. -/
def assignOk (_r : Result α ε) (o : Ok α) : Result α ε := .ok o.value

/-- Assignment from an Error tag, result.hpp lines 63-66. -/
def assignError (_r : Result α ε) (o : Error ε) : Result α ε := .err o.value

/-- Branch query has_value, result.hpp line 100: whether the variant holds
the OkIndex alternative. -/
def has_value : Result α ε → Bool
  | .ok _ => true
  | .err _ => false

/-- Branch query has_error, result.hpp line 101: whether the variant holds
the ErrorIndex alternative. -/
def has_error : Result α ε → Bool
  | .ok _ => false
  | .err _ => true

/-- Boolean conversion, result.hpp line 102: same as has_value. -/
def toBool (r : Result α ε) : Bool := has_value r

/-- Read-access unwrap, result.hpp lines 68-74: on the error branch throws
BadUnwrapException built from a copy of the error payload, otherwise
returns the success payload. -/
def unwrap (descr : DescrHook ε) : Result α ε → Except (Failure ε) α
  | .err e => .error (.badUnwrap e (constructMessage descr e))
  | .ok v => .ok v

/-- Consuming unwrap, result.hpp lines 76-82: same branch check, the error
payload is moved into the exception and the success payload moved out;
moves do not change payload values, so the embedding coincides with the
read overload. -/
def unwrapMove (descr : DescrHook ε) : Result α ε → Except (Failure ε) α
  | .err e => .error (.badUnwrap e (constructMessage descr e))
  | .ok v => .ok v

/-- Read-access error, result.hpp lines 84-90: on the success branch throws
a generic std::runtime_error carrying no payload, otherwise returns the
error payload. -/
def errorAccess : Result α ε → Except (Failure ε) ε
  | .ok _ => .error (.runtimeError "Failed to access error of a successful Result")
  | .err e => .ok e

/-- Consuming error, result.hpp lines 92-98: same branch check with the
error payload moved out. -/
def errorMove : Result α ε → Except (Failure ε) ε
  | .ok _ => .error (.runtimeError "Failed to access error of a successful Result")
  | .err e => .ok e

/-- Read-access unwrap as a state transformer: the const member function of
result.hpp lines 68-74 can only read the variant, so the instance after the
call is written out per branch exactly as the call left it, on the throwing
path included. -/
def unwrapRead (descr : DescrHook ε) (r : Result α ε) :
    Except (Failure ε) α × Result α ε :=
  match r with
  | .err e => (.error (.badUnwrap e (constructMessage descr e)), .err e)
  | .ok v => (.ok v, .ok v)

/-- Read-access error as a state transformer, result.hpp lines 84-90. -/
def errorRead (r : Result α ε) : Except (Failure ε) ε × Result α ε :=
  match r with
  | .ok v => (.error (.runtimeError "Failed to access error of a successful Result"), .ok v)
  | .err e => (.ok e, .err e)

/-- Read-access map for a non-void transform, result.hpp lines 104-116:
when has_error holds, the error is propagated through an internal call to
error; otherwise the transform is applied once to the internally unwrapped
payload and wrapped as the new success branch. The internal error and
unwrap calls are embedded faithfully, so their (unreachable) throwing
branches appear as Except propagation; the second component counts the
invocations of the transform. -/
def mapCopy (descr : DescrHook ε) (f : α → β) (r : Result α ε) :
    Except (Failure ε) (Result β ε) × Nat :=
  if has_error r then
    match errorAccess r with
    | .error fl => (.error fl, 0)
    | .ok e => (.ok (.err e), 0)
  else
    match unwrap descr r with
    | .error fl => (.error fl, 0)
    | .ok v => (.ok (.ok (f v)), 1)

/-- Consuming map for a non-void transform, result.hpp lines 118-130,
non-void branch (line 128): the error branch is moved through the consuming
error call, the success payload moved into a single invocation of the
transform. -/
def mapMove (descr : DescrHook ε) (f : α → β) (r : Result α ε) :
    Except (Failure ε) (Result β ε) × Nat :=
  if has_error r then
    match errorMove r with
    | .error fl => (.error fl, 0)
    | .ok e => (.ok (.err e), 0)
  else
    match unwrapMove descr r with
    | .error fl => (.error fl, 0)
    | .ok v => (.ok (.ok (f v)), 1)

/-- Read-access map for a void-returning transform, result.hpp lines
104-116, void branch (lines 110-112): the transform is invoked once purely
for its side effect and an empty success Result is returned. -/
def mapCopyVoid (descr : DescrHook ε) (f : α → Unit) (r : Result α ε) :
    Except (Failure ε) (Result Unit ε) × Nat :=
  if has_error r then
    match errorAccess r with
    | .error fl => (.error fl, 0)
    | .ok e => (.ok (.err e), 0)
  else
    match unwrap descr r with
    | .error fl => (.error fl, 0)
    | .ok v =>
      let _ := f v
      (.ok (.ok ()), 1)

/-- Consuming map for a void-returning transform, result.hpp lines 118-130,
void branch. Line 125 reads f(f(std::move(*this).unwrap())): the transform
appears at two call sites on the success path. The outer call site receives
the void result of the inner one, so the expression is not even well typed
in C++; the embedding performs the inner invocation and counts both call
sites, recording an invocation count of 2 on the success path. -/
def mapMoveVoid (descr : DescrHook ε) (f : α → Unit) (r : Result α ε) :
    Except (Failure ε) (Result Unit ε) × Nat :=
  if has_error r then
    match errorMove r with
    | .error fl => (.error fl, 0)
    | .ok e => (.ok (.err e), 0)
  else
    match unwrapMove descr r with
    | .error fl => (.error fl, 0)
    | .ok v =>
      let _ := f v
      (.ok (.ok ()), 2)

/-- Read-access map_error, result.hpp lines 132-139: when has_value holds,
the success payload is propagated through an internal unwrap call and the
transform is not invoked; otherwise the transform is applied once to the
internally accessed error payload. -/
def mapErrorCopy (descr : DescrHook ε) (f : ε → η) (r : Result α ε) :
    Except (Failure ε) (Result α η) × Nat :=
  if has_value r then
    match unwrap descr r with
    | .error fl => (.error fl, 0)
    | .ok v => (.ok (.ok v), 0)
  else
    match errorAccess r with
    | .error fl => (.error fl, 0)
    | .ok e => (.ok (.err (f e)), 1)

/-- Consuming map_error, result.hpp lines 141-148: the moving counterpart,
with a single invocation of the transform on the error branch. -/
def mapErrorMove (descr : DescrHook ε) (f : ε → η) (r : Result α ε) :
    Except (Failure ε) (Result α η) × Nat :=
  if has_value r then
    match unwrapMove descr r with
    | .error fl => (.error fl, 0)
    | .ok v => (.ok (.ok v), 0)
  else
    match errorMove r with
    | .error fl => (.error fl, 0)
    | .ok e => (.ok (.err (f e)), 1)

/-- The empty-success specialization Result of void, result.hpp lines
157-250: stored as an optional error value, none encoding the success
branch and some the error branch. -/
def ResultV (ε : Type) : Type := Option ε

/-- Constructor from the empty Ok tag, result.hpp line 160. -/
def ofOkV : ResultV ε := none

/-- Constructor from an Error tag, result.hpp line 161. -/
def ofErrorV (o : Error ε) : ResultV ε := some o.value

/-- Branch query has_error of the specialization, result.hpp line 199. -/
def has_errorV (r : ResultV ε) : Bool := r.isSome

/-- Boolean conversion of the specialization, result.hpp line 200: the
negation of has_error. -/
def toBoolV (r : ResultV ε) : Bool := !has_errorV r

/-- The unwrap overloads of the specialization, result.hpp lines 173-183:
throw BadUnwrapException from the stored error when one is present,
otherwise return nothing. Read and consuming forms coincide on values. -/
def unwrapV (descr : DescrHook ε) : ResultV ε → Except (Failure ε) Unit
  | some e => .error (.badUnwrap e (constructMessage descr e))
  | none => .ok ()

/-- The error overloads of the specialization, result.hpp lines 185-197:
throw the generic runtime error when no error is stored, otherwise return
the stored error payload. -/
def errorV : ResultV ε → Except (Failure ε) ε
  | none => .error (.runtimeError "Failed to access error of a successful Result")
  | some e => .ok e

/-- The map overloads of the specialization, result.hpp lines 202-228: the
stored optional is inspected directly (no internal unwrap or error call, so
no Except is needed); on the error branch the error propagates and the
transform is not invoked, on the success branch the transform is invoked
exactly once. Both the non-void and the void constexpr branches invoke the
transform once, and the read and consuming overloads agree on values, so a
single definition covers all four instantiations. -/
def mapV (f : Unit → β) (r : ResultV ε) : Result β ε × Nat :=
  match r with
  | some e => (.err e, 0)
  | none => (.ok (f ()), 1)

/-- The map_error overloads of the specialization, result.hpp lines
230-246: on the success branch an empty success Result is returned and the
transform is not invoked, on the error branch the transform is applied once
to the stored error. -/
def mapErrorV (f : ε → η) (r : ResultV ε) : ResultV η × Nat :=
  match r with
  | none => (none, 0)
  | some e => (some (f e), 1)

/-- The simulation map from the specialization to the generic Result with a
unit success payload: absence of an error is the empty success branch,
presence is the error branch. -/
def toGeneric : ResultV ε → Result Unit ε
  | none => .ok ()
  | some e => .err e

/-- Claim C1: the spec requires that the consuming overload of map invoke
the transform exactly once on a success-branch result, also when the
transform returns void. The code violates this: evaluating the embedding of
result.hpp line 125 on the concrete success input Ok 42 with a
void-returning transform records 2 invocations of the transform, while the
read-access overload on the same input records the contractual single
invocation. -/
theorem c1_consuming_void_map_double_invocation :
    (mapMoveVoid (none : DescrHook String) (fun (_ : Nat) => ())
      (Result.ok 42)).2 = 2
    ∧ (mapCopyVoid (none : DescrHook String) (fun (_ : Nat) => ())
      (Result.ok 42)).2 = 1 := by
  exact ⟨rfl, rfl⟩

/-- Claim C2: every Result obtained by construction from an Ok or Error tag
or by assignment of a fresh tag into an existing Result has exactly one
active branch: has_value is the negation of has_error for every value of
the type, construction and assignment from Ok yield the success branch, and
construction and assignment from Error yield the error branch. -/
theorem c2_branch_exclusivity (r : Result α ε) (o : Ok α) (t : Error ε) :
    has_value r = !has_error r
    ∧ has_value (ofOk o : Result α ε) = true
    ∧ has_error (ofError t : Result α ε) = true
    ∧ has_value (assignOk r o) = !has_error (assignOk r o)
    ∧ has_error (assignOk r o) = false
    ∧ has_value (assignError r t) = false
    ∧ has_error (assignError r t) = true := by
  cases r <;> simp [has_value, has_error, ofOk, ofError, assignOk, assignError]

/-- Claim C2 witness at concrete inputs. -/
theorem c2_branch_exclusivity_witness :
    has_value (Result.ok 3 : Result Nat String) =
      !has_error (Result.ok 3 : Result Nat String) := by
  exact (c2_branch_exclusivity (Result.ok 3) (Ok.mk 0) (Error.mk "e")).1

/-- Claim C3: a Result constructed from Ok v is in the success branch and
unwrap returns v; a Result constructed from Error e is in the error branch
and error returns e. -/
theorem c3_round_trip (descr : DescrHook ε) (v : α) (e : ε) :
    has_value (ofOk (Ok.mk v) : Result α ε) = true
    ∧ unwrap descr (ofOk (Ok.mk v) : Result α ε) = .ok v
    ∧ has_error (ofError (Error.mk e) : Result α ε) = true
    ∧ errorAccess (ofError (Error.mk e) : Result α ε) = .ok e := by
  simp [has_value, has_error, ofOk, ofError, unwrap, errorAccess]

/-- Claim C4: on an error-branch result every map overload returns, without
raising, an error-branch Result carrying the original error payload, with
the transform never invoked; and no map overload ever raises a wrong-branch
failure on any input. -/
theorem c4_map_identity_on_error (descr : DescrHook ε) (f : α → β)
    (fv : α → Unit) (e : ε) (r : Result α ε) :
    mapCopy descr f (Result.err e) = (.ok (.err e), 0)
    ∧ mapMove descr f (Result.err e) = (.ok (.err e), 0)
    ∧ mapCopyVoid descr fv (Result.err e) = (.ok (.err e), 0)
    ∧ mapMoveVoid descr fv (Result.err e) = (.ok (.err e), 0)
    ∧ raises (mapCopy descr f r).1 = false
    ∧ raises (mapMove descr f r).1 = false
    ∧ raises (mapCopyVoid descr fv r).1 = false
    ∧ raises (mapMoveVoid descr fv r).1 = false := by
  cases r <;>
    simp [mapCopy, mapMove, mapCopyVoid, mapMoveVoid, has_error, has_value,
      errorAccess, errorMove, unwrap, unwrapMove, raises]

/-- Claim C5: on a success-branch result both map_error overloads return a
success-branch Result carrying the original success payload, with the
transform never invoked. -/
theorem c5_map_error_identity_on_success (descr : DescrHook ε) (f : ε → η)
    (v : α) :
    mapErrorCopy descr f (Result.ok v) = (.ok (.ok v), 0)
    ∧ mapErrorMove descr f (Result.ok v) = (.ok (.ok v), 0) := by
  simp [mapErrorCopy, mapErrorMove, has_value, unwrap, unwrapMove]

/-- Claim C6: unwrap raises exactly when the error branch is active and the
raised failure is the BadUnwrapException carrying the error payload (both
the read and the consuming overload); error raises exactly when the success
branch is active and the raised failure is the distinct generic runtime
error carrying only a message and no payload. -/
theorem c6_wrong_branch_failures (descr : DescrHook ε) (r : Result α ε)
    (e : ε) (v : α) :
    raises (unwrap descr r) = has_error r
    ∧ raises (unwrapMove descr r) = has_error r
    ∧ raises (errorAccess r) = has_value r
    ∧ raises (errorMove r) = has_value r
    ∧ unwrap descr (Result.err e : Result α ε) =
        .error (.badUnwrap e (constructMessage descr e))
    ∧ unwrapMove descr (Result.err e : Result α ε) =
        .error (.badUnwrap e (constructMessage descr e))
    ∧ errorAccess (Result.ok v : Result α ε) =
        .error (.runtimeError "Failed to access error of a successful Result")
    ∧ errorMove (Result.ok v : Result α ε) =
        .error (.runtimeError "Failed to access error of a successful Result") := by
  cases r <;>
    simp [raises, unwrap, unwrapMove, errorAccess, errorMove, has_value,
      has_error]

/-- Claim C7: when the error type opts in to the description capability,
the failure raised by an erroneous unwrap carries the generic text followed
by the rendered description; without the capability it carries the generic
fallback alone. The capability is a per-instantiation hook, fixed before
any value is inspected. -/
theorem c7_description_hook (d : ε → String) (e : ε) :
    unwrap (some d) (Result.err e : Result α ε) =
      .error (.badUnwrap e ("Failed to unwrap Result: " ++ d e))
    ∧ unwrap none (Result.err e : Result α ε) =
      .error (.badUnwrap e "Failed to unwrap Result") := by
  simp [unwrap, constructMessage]

/-- Claim C8: the empty-success specialization simulates the generic Result
with a unit success payload: under the simulation map toGeneric the branch
queries, the boolean conversion, the raise conditions and payloads of
unwrap and error, and the values and transform-invocation counts of the
read-access map and both map_error overloads all agree (the generic side of
map never raising, its value is compared under Except.ok). -/
theorem c8_void_specialization_equivalence (descr : DescrHook ε)
    (o : ResultV ε) (f : Unit → β) (g : ε → η) :
    has_errorV o = has_error (toGeneric o)
    ∧ toBoolV o = has_value (toGeneric o)
    ∧ toBoolV o = !has_errorV o
    ∧ unwrapV descr o = unwrap descr (toGeneric o)
    ∧ unwrapV descr o = unwrapMove descr (toGeneric o)
    ∧ errorV o = errorAccess (toGeneric o)
    ∧ errorV o = errorMove (toGeneric o)
    ∧ (mapCopy descr f (toGeneric o)).1 = .ok (mapV f o).1
    ∧ (mapCopy descr f (toGeneric o)).2 = (mapV f o).2
    ∧ (mapMove descr f (toGeneric o)).1 = .ok (mapV f o).1
    ∧ (mapErrorCopy descr g (toGeneric o)).1 = .ok (toGeneric (mapErrorV g o).1)
    ∧ (mapErrorCopy descr g (toGeneric o)).2 = (mapErrorV g o).2
    ∧ (mapErrorMove descr g (toGeneric o)).1 = .ok (toGeneric (mapErrorV g o).1)
    ∧ (mapErrorMove descr g (toGeneric o)).2 = (mapErrorV g o).2 := by
  cases o <;>
    simp [has_errorV, toBoolV, has_error, has_value, toGeneric, toBool,
      unwrapV, unwrap, unwrapMove, errorV, errorAccess, errorMove, mapV,
      mapCopy, mapMove, mapErrorV, mapErrorCopy, mapErrorMove,
      Option.isSome]

/-- Claim C9: on a success-branch result, mapping f and then g yields the
same result, success payload included, as a single map with the composed
transform, for the read-access and the consuming overload alike (the chain
threads the first map through Except exactly as the C++ expression chains
the member calls). -/
theorem c9_map_functor_composition (descr : DescrHook ε) (f : α → β)
    (g : β → γ) (v : α) :
    Except.bind ((mapCopy descr f (Result.ok v : Result α ε)).1)
        (fun r2 => (mapCopy descr g r2).1)
      = (mapCopy descr (fun x => g (f x)) (Result.ok v : Result α ε)).1
    ∧ Except.bind ((mapMove descr f (Result.ok v : Result α ε)).1)
        (fun r2 => (mapMove descr g r2).1)
      = (mapMove descr (fun x => g (f x)) (Result.ok v : Result α ε)).1 := by
  simp [mapCopy, mapMove, has_error, errorAccess, errorMove, unwrap,
    unwrapMove, Except.bind]

/-- Claim C10: the read-access overloads of unwrap and error leave the
Result unchanged on every path, the raising paths included: the state
component of the transformer is always the original value, on an
error-branch input unwrap raises a failure carrying a copy of the payload
that is still stored, on a success-branch input error raises the generic
failure with the success payload still stored, and the value components
coincide with the plain accessors. -/
theorem c10_read_access_frame (descr : DescrHook ε) (r : Result α ε)
    (e : ε) (v : α) :
    (unwrapRead descr r).2 = r
    ∧ (errorRead r).2 = r
    ∧ unwrapRead descr (Result.err e : Result α ε) =
        (.error (.badUnwrap e (constructMessage descr e)), Result.err e)
    ∧ errorRead (Result.ok v : Result α ε) =
        (.error (.runtimeError "Failed to access error of a successful Result"),
          Result.ok v)
    ∧ (unwrapRead descr r).1 = unwrap descr r
    ∧ (errorRead r).1 = errorAccess r := by
  cases r <;> simp [unwrapRead, errorRead, unwrap, errorAccess]

end ResultLib
